import Mathlib

/-!
Verification of the fragmented-transfer tracking and latency-decomposition
engine of the `predictable-edge/5G-measurement` repository.

The development shallowly embeds:
- the UDP fragment tracker (the receive loop of
  `testbed-5G-latency/dl-latency-udp/client.cpp`) in namespace `Udp`;
- the UDP fragment emitter (`send_request` of
  `testbed-5G-latency/dl-latency-udp/server.cpp`) in namespace `UdpServer`;
- the TCP stream tracker (the per-connection loop of
  `testbed-5G-latency/dl-latency-tcp/client.cpp`) in namespace `Tcp`;
- the trigger-driven sender (`send_data_to_phone` of
  `commerical-5G-latency-decompose/multiple-packet-dl-decompose/aws_server.cpp`)
  in namespace `Aws`.

Machine integers (`uint32_t`, `uint64_t`) are modelled as `Nat`; the only
place the C code performs arithmetic on them is the `uint64_t` subtraction in
the result writers, modelled by `wsub` with an explicit reduction mod 2^64.
-/

/-- Subtraction of `uint64_t` values as performed by the C code: the operands
are reduced to their 64-bit representatives and the difference wraps
mod 2^64. -/
def wsub (a b : Nat) : Nat :=
  (2 ^ 64 + a % 2 ^ 64 - b % 2 ^ 64) % 2 ^ 64

namespace Udp

/-- The wire packet of `dl-latency-udp` (struct `Packet`); the opaque `data`
buffer is irrelevant to the tracker and omitted. -/
structure Packet where
  timestamp : Nat
  packet_id : Nat
  total_packets : Nat
  request_id : Nat
  total_requests : Nat
  data_size : Nat
deriving DecidableEq, Repr

/-- Per-request statistics of the UDP client (struct `RequestStats`).
`received_packets` models the key set of the C `std::map<int,bool>` in which
every stored value is `true`; it is kept duplicate-free by `insertPacketId`. -/
structure RequestStats where
  first_packet_send_time : Nat
  first_packet_recv_time : Nat
  last_packet_recv_time : Nat
  is_complete : Bool
  received_packets : List Nat
deriving DecidableEq, Repr

/-- The default-constructed `RequestStats()` of the C code. -/
def RequestStats.init : RequestStats :=
  { first_packet_send_time := 0
    first_packet_recv_time := 0
    last_packet_recv_time := 0
    is_complete := false
    received_packets := [] }

/-- Key-set insertion: `received_packets[packet_id] = true` on a
`std::map<int,bool>` adds the key if absent and is a no-op otherwise. -/
def insertPacketId (l : List Nat) (id : Nat) : List Nat :=
  if id ∈ l then l else l ++ [id]

/-- Lookup in the association list modelling `std::map<int, RequestStats>`. -/
def findReq (m : List (Nat × RequestStats)) (id : Nat) : Option RequestStats :=
  match m with
  | [] => none
  | (k, v) :: rest => if k = id then some v else findReq rest id

/-- Insert-or-update in the association list modelling
`std::map<int, RequestStats>`. -/
def setReq (m : List (Nat × RequestStats)) (id : Nat) (v : RequestStats) :
    List (Nat × RequestStats) :=
  match m with
  | [] => [(id, v)]
  | (k, w) :: rest => if k = id then (id, v) :: rest else (k, w) :: setReq rest id v

/-- The state mutated by the UDP client's receive loop: the global `requests`
map plus the locals `highest_request_id` and `total_requests` of `main`. -/
structure ClientState where
  requests : List (Nat × RequestStats)
  highest_request_id : Nat
  total_requests : Nat
deriving DecidableEq, Repr

/-- State at entry of the receive loop (`client.cpp` lines 131-132). -/
def initState : ClientState :=
  { requests := [], highest_request_id := 0, total_requests := 0 }

/-- The per-packet mutation of one `RequestStats` entry performed by
`client.cpp` lines 180-195: insert the packet id into `received_packets`
(line 180), on `packet_id == 0` overwrite the first-packet times (lines
183-186), set `last_packet_recv_time` to this arrival's receive time
(line 189), and mark complete when the received-set size equals this
packet's `total_packets` field (lines 192-195). -/
def updateStats (st : RequestStats) (p : Packet) (recv_time : Nat) : RequestStats :=
  let received := insertPacketId st.received_packets p.packet_id
  { first_packet_send_time :=
      if p.packet_id = 0 then p.timestamp else st.first_packet_send_time
    first_packet_recv_time :=
      if p.packet_id = 0 then recv_time else st.first_packet_recv_time
    last_packet_recv_time := recv_time
    is_complete :=
      if received.length = p.total_packets then true else st.is_complete
    received_packets := received }

/-- One iteration of the packet-processing body of the UDP client's receive
loop (`client.cpp` lines 153-195): update `total_requests` (lines 158-162),
`highest_request_id` (lines 165-167), create the request entry if absent
(lines 174-177) and mutate it per `updateStats`. -/
def processPacket (s : ClientState) (p : Packet) (recv_time : Nat) : ClientState :=
  let prev := (findReq s.requests p.request_id).getD RequestStats.init
  { requests := setReq s.requests p.request_id (updateStats prev p recv_time)
    highest_request_id :=
      if p.request_id > s.highest_request_id then p.request_id
      else s.highest_request_id
    total_requests :=
      if s.total_requests = 0 ∨ p.total_requests > s.total_requests
      then p.total_requests else s.total_requests }

/-- The inner all-requests-complete scan of `client.cpp` lines 199-205. -/
def allComplete (s : ClientState) : Bool :=
  (List.range s.total_requests).all fun i =>
    match findReq s.requests i with
    | some st => st.is_complete
    | none => false

/-- The session-termination condition of `client.cpp` lines 197-211: the
loop stops only when `total_requests > 0`, the highest request id seen
equals `total_requests - 1`, and every request in range is complete. -/
def terminationCheck (s : ClientState) : Bool :=
  decide (0 < s.total_requests) &&
  (s.highest_request_id == s.total_requests - 1) &&
  allComplete s

/-- The session-completion condition as worded by the specification
(spec 3, SessionState invariant): `total_requests_declared > 0` and every
request id in range has a complete record.  Stated for comparison with
`terminationCheck`, which is what the code actually evaluates. -/
def specSessionComplete (s : ClientState) : Bool :=
  decide (0 < s.total_requests) && allComplete s

/-- Fold of `processPacket` over a sequence of (packet, receive-time)
arrivals, with no early exit. -/
def processAll (s : ClientState) : List (Packet × Nat) → ClientState
  | [] => s
  | (p, t) :: rest => processAll (processPacket s p t) rest

/-- The receive loop with its termination test: returns the final state and
whether the loop stopped by itself (`running = false` at line 209). -/
def runLoop (s : ClientState) : List (Packet × Nat) → ClientState × Bool
  | [] => (s, false)
  | (p, t) :: rest =>
    let s2 := processPacket s p t
    if terminationCheck s2 then (s2, true) else runLoop s2 rest

/-- One output row of the UDP client's `write_results` (lines 63-74):
request id, `first_packet_recv_time - first_packet_send_time` and
`last_packet_recv_time - first_packet_recv_time`, both `uint64_t`
subtractions. -/
structure LatencyRecord where
  request_id : Nat
  first_packet_latency : Nat
  last_to_first_diff : Nat
deriving DecidableEq, Repr

/-- The row `write_results` emits for one map entry of the UDP client. -/
def latencyRecordOf (id : Nat) (st : RequestStats) : LatencyRecord :=
  { request_id := id
    first_packet_latency := wsub st.first_packet_recv_time st.first_packet_send_time
    last_to_first_diff := wsub st.last_packet_recv_time st.first_packet_recv_time }

/-- The data rows written by the UDP client's `write_results` (lines 63-74):
one row per entry of the `requests` map, with no completeness filter. -/
def write_results (m : List (Nat × RequestStats)) : List LatencyRecord :=
  m.map fun kv => latencyRecordOf kv.1 kv.2

end Udp

namespace UdpServer

/-- The ceil division computed at `server.cpp` line 28,
`(bytes_to_send + MAX_PACKET_SIZE - 1) / MAX_PACKET_SIZE`, with the
fragment capacity as a parameter. -/
def totalPacketsFor (bytes_to_send max_size : Nat) : Nat :=
  (bytes_to_send + max_size - 1) / max_size

/-- The per-packet `data_size` values assigned by the preparation loop of
`send_request` (`server.cpp` lines 34-48): each iteration takes
`min(bytes_remaining, max_size)` and decrements `bytes_remaining`. -/
def fragmentSizes (max_size : Nat) : Nat → Nat → List Nat
  | _, 0 => []
  | bytes_remaining, n + 1 =>
    let sz := if bytes_remaining > max_size then max_size else bytes_remaining
    sz :: fragmentSizes max_size (bytes_remaining - sz) n

/-- The packets prepared by `send_request` (`server.cpp` lines 26-48):
`total_packets = ceil(bytes_to_send / max_size)` packets with
`packet_id = i`, shared `total_packets`, `request_id`, `total_requests`,
and the sizes of the preparation loop.  The `timestamp` field is stamped
immediately before each send (line 53) and is irrelevant here; it is left 0. -/
def preparePackets (bytes_to_send max_size request_id total_requests : Nat) :
    List Udp.Packet :=
  let total := totalPacketsFor bytes_to_send max_size
  ((List.range total).zip (fragmentSizes max_size bytes_to_send total)).map
    fun isz =>
      { timestamp := 0
        packet_id := isz.1
        total_packets := total
        request_id := request_id
        total_requests := total_requests
        data_size := isz.2 }

/-- The fixed fragment capacity `MAX_PACKET_SIZE` of `server.cpp`. -/
def MAX_PACKET_SIZE : Nat := 1400

/-- `send_request` instantiated at the code's fixed capacity. -/
def send_request (bytes_to_send request_id total_requests : Nat) : List Udp.Packet :=
  preparePackets bytes_to_send MAX_PACKET_SIZE request_id total_requests

end UdpServer

namespace Tcp

/-- The wire header of `dl-latency-tcp` (struct `RequestHeader`). -/
structure RequestHeader where
  timestamp : Nat
  request_id : Nat
  total_requests : Nat
  data_size : Nat
deriving DecidableEq, Repr

/-- Per-request statistics of the TCP client (struct `RequestStats` of
`dl-latency-tcp/client.cpp`). -/
structure RequestStats where
  send_time : Nat
  header_recv_time : Nat
  data_complete_time : Nat
  is_complete : Bool
deriving DecidableEq, Repr

/-- Lookup in the association list modelling the TCP client's
`std::map<int, RequestStats>`. -/
def findReq (m : List (Nat × RequestStats)) (id : Nat) : Option RequestStats :=
  match m with
  | [] => none
  | (k, v) :: rest => if k = id then some v else findReq rest id

/-- Insert-or-update in that map. -/
def setReq (m : List (Nat × RequestStats)) (id : Nat) (v : RequestStats) :
    List (Nat × RequestStats) :=
  match m with
  | [] => [(id, v)]
  | (k, w) :: rest => if k = id then (id, v) :: rest else (k, w) :: setReq rest id v

/-- Exit status of the payload-accumulation loop of `client.cpp` lines
174-187: either the loop exited (with the final `total_received` and
`remaining`), or the event trace ran out while the loop was still waiting
on a blocking `recv`. -/
inductive RecvOutcome
  | exited (total_received remaining : Int)
  | blocked
deriving DecidableEq, Repr

/-- The payload-accumulation loop of `client.cpp` lines 174-187: while
`remaining > 0`, take the next `recv` return value; a value `≤ 0` (peer
closed or error) breaks out, a positive value is added to
`total_received` and subtracted from `remaining`.  `remaining` and
`total_received` are C `int`s, modelled as `Int`. -/
def recvPayload (remaining total_received : Int) : List Int → RecvOutcome
  | [] =>
    if remaining ≤ 0 then .exited total_received remaining else .blocked
  | r :: rest =>
    if remaining ≤ 0 then .exited total_received remaining
    else if r ≤ 0 then .exited total_received remaining
    else recvPayload (remaining - r) (total_received + r) rest

/-- The session-level state mutated per received request by `client.cpp`
lines 200-224: the `requests` map plus `total_requests_received` and
`expected_total_requests`. -/
structure SessionState where
  requests : List (Nat × RequestStats)
  total_requests_received : Nat
  expected_total_requests : Nat
deriving DecidableEq, Repr

/-- State at entry of the accept loop (`client.cpp` lines 130-131). -/
def initSession : SessionState :=
  { requests := [], total_requests_received := 0, expected_total_requests := 0 }

/-- The recording step of `client.cpp` lines 200-224, reached only after
the payload arrived in full: on the very first request ever received,
`expected_total_requests` is fixed from that header (lines 201-204); the
request's statistics are stored with `is_complete = true` (lines 219-222)
and `total_requests_received` is incremented (line 224). -/
def processRequest (s : SessionState) (h : RequestHeader)
    (header_recv_time data_complete_time : Nat) : SessionState :=
  { requests := setReq s.requests h.request_id
      { send_time := h.timestamp
        header_recv_time := header_recv_time
        data_complete_time := data_complete_time
        is_complete := true }
    total_requests_received := s.total_requests_received + 1
    expected_total_requests :=
      if s.total_requests_received = 0 then h.total_requests
      else s.expected_total_requests }

/-- Result of handling one request on a connection (`client.cpp` lines
150-232): `recorded` when the payload arrived in full and the statistics
were stored; `aborted` when fewer bytes than declared arrived before the
loop exited (lines 194-198) — the per-connection loop breaks and the
session state is returned untouched; `blocked` when the event trace ran
out mid-receive. -/
inductive ConnStep
  | recorded (s : SessionState)
  | aborted (s : SessionState)
  | blocked
deriving DecidableEq, Repr

/-- Handling of one request on a connection: receive the payload per
`recvPayload`; if `remaining > 0` afterwards the transfer is incomplete
and the connection is abandoned with the session state unchanged
(lines 194-198); otherwise the request is recorded (lines 200-224). -/
def handleOneRequest (s : SessionState) (h : RequestHeader)
    (header_recv_time data_complete_time : Nat) (evs : List Int) : ConnStep :=
  match recvPayload (h.data_size : Int) 0 evs with
  | .blocked => .blocked
  | .exited _ remaining =>
    if remaining > 0 then .aborted s
    else .recorded (processRequest s h header_recv_time data_complete_time)

/-- The per-request loop over fully received requests, with the
all-requests-received break of `client.cpp` lines 227-232. -/
def runRequests (s : SessionState) : List (RequestHeader × Nat × Nat) → SessionState
  | [] => s
  | (h, t1, t2) :: rest =>
    let s2 := processRequest s h t1 t2
    if 0 < s2.expected_total_requests ∧
       s2.expected_total_requests ≤ s2.total_requests_received
    then s2 else runRequests s2 rest

/-- The row the TCP client's `write_results` emits for one complete map
entry (lines 61-68): transmission delay `header_recv_time - send_time` and
data-reception duration `data_complete_time - header_recv_time`, both
`uint64_t` subtractions. -/
def latencyRecordOf (id : Nat) (st : RequestStats) : Udp.LatencyRecord :=
  { request_id := id
    first_packet_latency := wsub st.header_recv_time st.send_time
    last_to_first_diff := wsub st.data_complete_time st.header_recv_time }

/-- The data rows written by the TCP client's `write_results` (lines 56-70):
one row per map entry whose `is_complete` flag is set; incomplete entries
are skipped. -/
def write_results (m : List (Nat × RequestStats)) : List Udp.LatencyRecord :=
  (m.filter fun kv => kv.2.is_complete).map fun kv => latencyRecordOf kv.1 kv.2

/-- A transport-consistent event trace for a declared payload size: each
`recv` return value is positive and no larger than the bytes still
outstanding when it is returned (a socket never returns more bytes than
asked for). -/
def Fits : Int → List Int → Prop
  | _, [] => True
  | d, r :: rest => 0 < r ∧ r ≤ d ∧ Fits (d - r) rest

end Tcp

namespace Aws

/-- The 4-byte trigger token compared against at `aws_server.cpp` line 126,
as its ASCII byte values `T`, `R`, `I`, `G`. -/
def TRIG : List Nat := [84, 82, 73, 71]

/-- The trigger-driven send loop of `send_data_to_phone` (`aws_server.cpp`
lines 113-158).  Each event is `none` when `recv` returned `≤ 0` (the
connection closed: break) or `some bs` with the received bytes.  While
`requests_sent < num_requests`, a received value other than exactly the
4-byte token `TRIG` is discarded and the loop continues (lines 126-129);
on the token, one request of `bytes_per_request` payload bytes is sent
and `requests_sent` is incremented (lines 132-155).  The result is the
list of payload sizes sent, in order. -/
def send_data_to_phone (num_requests bytes_per_request requests_sent : Nat) :
    List (Option (List Nat)) → List Nat
  | [] => []
  | e :: rest =>
    if requests_sent < num_requests then
      match e with
      | none => []
      | some bs =>
        if bs.length = 4 ∧ bs = TRIG then
          bytes_per_request ::
            send_data_to_phone num_requests bytes_per_request (requests_sent + 1) rest
        else
          send_data_to_phone num_requests bytes_per_request requests_sent rest
    else []

end Aws

namespace Udp

theorem insertPacketId_mem (l : List Nat) (id : Nat) : id ∈ insertPacketId l id := by
  unfold insertPacketId
  split
  · assumption
  · simp

theorem insertPacketId_of_mem {l : List Nat} {id : Nat} (h : id ∈ l) :
    insertPacketId l id = l := by
  simp [insertPacketId, h]

theorem findReq_setReq_self (m : List (Nat × RequestStats)) (id : Nat) (v : RequestStats) :
    findReq (setReq m id v) id = some v := by
  induction m with
  | nil => simp [setReq, findReq]
  | cons kv rest ih =>
    obtain ⟨k, w⟩ := kv
    by_cases hk : k = id <;> simp [setReq, findReq, hk, ih]

theorem findReq_setReq_ne (m : List (Nat × RequestStats)) {id id' : Nat} (v : RequestStats)
    (h : id' ≠ id) : findReq (setReq m id v) id' = findReq m id' := by
  induction m with
  | nil => simp [setReq, findReq, Ne.symm h]
  | cons kv rest ih =>
    obtain ⟨k, w⟩ := kv
    by_cases hk : k = id
    · subst hk
      simp [setReq, findReq, Ne.symm h]
    · simp only [setReq, if_neg hk, findReq]
      by_cases hk' : k = id' <;> simp [hk', ih]

theorem setReq_setReq_self (m : List (Nat × RequestStats)) (id : Nat) (v w : RequestStats) :
    setReq (setReq m id v) id w = setReq m id w := by
  induction m with
  | nil => simp [setReq]
  | cons kv rest ih =>
    obtain ⟨k, u⟩ := kv
    by_cases hk : k = id <;> simp [setReq, hk, ih]

theorem updateStats_idem (st : RequestStats) (p : Packet) (t : Nat) :
    updateStats (updateStats st p t) p t = updateStats st p t := by
  simp only [updateStats]
  rw [insertPacketId_of_mem (insertPacketId_mem _ _)]
  by_cases hp : p.packet_id = 0 <;>
    by_cases hc :
      (insertPacketId st.received_packets p.packet_id).length = p.total_packets <;>
    simp [hp, hc]

theorem updateStats_complete_mono {st : RequestStats} (p : Packet) (t : Nat)
    (h : st.is_complete = true) : (updateStats st p t).is_complete = true := by
  simp only [updateStats]
  split <;> simp [h]

theorem findReq_processPacket_self (s : ClientState) (p : Packet) (t : Nat) :
    findReq (processPacket s p t).requests p.request_id =
      some (updateStats ((findReq s.requests p.request_id).getD RequestStats.init) p t) := by
  simp [processPacket, findReq_setReq_self]

theorem processPacket_idem (s : ClientState) (p : Packet) (t : Nat) :
    processPacket (processPacket s p t) p t = processPacket s p t := by
  simp only [processPacket, findReq_setReq_self, Option.getD_some,
    setReq_setReq_self, updateStats_idem, ClientState.mk.injEq]
  refine ⟨trivial, ?_, ?_⟩
  · by_cases h : p.request_id > s.highest_request_id <;> simp [h]
  · by_cases h : s.total_requests = 0 ∨ p.total_requests > s.total_requests <;> simp [h]

theorem processPacket_total (s : ClientState) (p : Packet) (t : Nat) :
    (processPacket s p t).total_requests = max s.total_requests p.total_requests := by
  simp only [processPacket, Nat.max_def]
  split <;> split <;> omega

theorem processAll_total (evs : List (Packet × Nat)) :
    ∀ s : ClientState, (processAll s evs).total_requests =
      (evs.map fun e => e.1.total_requests).foldl max s.total_requests := by
  induction evs with
  | nil => intro s; simp [processAll]
  | cons e rest ih =>
    intro s
    obtain ⟨p, t⟩ := e
    simp only [processAll, List.map_cons, List.foldl_cons, ih, processPacket_total]

theorem processPacket_complete_mono {s : ClientState} (p : Packet) (t : Nat)
    {rid : Nat} {st : RequestStats}
    (h1 : findReq s.requests rid = some st) (h2 : st.is_complete = true) :
    ∃ st', findReq (processPacket s p t).requests rid = some st' ∧
      st'.is_complete = true := by
  by_cases hr : rid = p.request_id
  · subst hr
    refine ⟨_, findReq_processPacket_self s p t, ?_⟩
    rw [h1]
    exact updateStats_complete_mono p t h2
  · refine ⟨st, ?_, h2⟩
    simpa [processPacket, findReq_setReq_ne _ _ hr] using h1

theorem processAll_complete_mono (evs : List (Packet × Nat)) :
    ∀ (s : ClientState) (rid : Nat) (st : RequestStats),
      findReq s.requests rid = some st → st.is_complete = true →
      ∃ st', findReq (processAll s evs).requests rid = some st' ∧
        st'.is_complete = true := by
  induction evs with
  | nil => intro s rid st h1 h2; exact ⟨st, h1, h2⟩
  | cons e rest ih =>
    intro s rid st h1 h2
    obtain ⟨p, t⟩ := e
    obtain ⟨st', h1', h2'⟩ := processPacket_complete_mono p t h1 h2
    exact ih (processPacket s p t) rid st' h1' h2'

theorem runLoop_sound (evs : List (Packet × Nat)) :
    ∀ s : ClientState, (runLoop s evs).2 = true →
      terminationCheck (runLoop s evs).1 = true := by
  induction evs with
  | nil => intro s h; simp [runLoop] at h
  | cons e rest ih =>
    intro s h
    obtain ⟨p, t⟩ := e
    simp only [runLoop] at h ⊢
    split at h
    · next hc => simp [hc]
    · next hc => simpa [hc] using ih (processPacket s p t) h

theorem terminationCheck_spec {s : ClientState} (h : terminationCheck s = true) :
    specSessionComplete s = true := by
  simp only [terminationCheck, Bool.and_eq_true] at h
  simp [specSessionComplete, h.1.1, h.2]

end Udp

namespace UdpServer

theorem fragmentSizes_length (m : Nat) : ∀ (c b : Nat), (fragmentSizes m b c).length = c := by
  intro c
  induction c with
  | zero => intro b; simp [fragmentSizes]
  | succ n ih => intro b; simp [fragmentSizes, ih]

theorem fragmentSizes_succ_eq {m : Nat} :
    ∀ (k b : Nat), k * m < b → b ≤ (k + 1) * m →
      fragmentSizes m b (k + 1) = List.replicate k m ++ [b - k * m] := by
  intro k
  induction k with
  | zero =>
    intro b h1 h2
    have h2' : b ≤ m := by simpa using h2
    simp [fragmentSizes, show ¬ b > m by omega]
  | succ k ih =>
    intro b h1 h2
    have e1 : (k + 1) * m = k * m + m := by ring
    have e2 : (k + 1 + 1) * m = k * m + m + m := by ring
    have hbm : m < b := by omega
    have hrec := ih (b - m) (by omega) (by omega)
    have hstep : fragmentSizes m b (k + 1 + 1) = m :: fragmentSizes m (b - m) (k + 1) := by
      simp [fragmentSizes, hbm]
    rw [hstep, hrec, List.replicate_succ]
    simp only [List.cons_append, List.cons.injEq, true_and]
    congr 2
    omega

theorem totalPacketsFor_bounds {b m : Nat} (hb : 0 < b) (hm : 0 < m) :
    (totalPacketsFor b m - 1) * m < b ∧ b ≤ totalPacketsFor b m * m := by
  unfold totalPacketsFor
  have hdm := Nat.div_add_mod (b + m - 1) m
  have hmod : (b + m - 1) % m < m := Nat.mod_lt _ hm
  rcases Nat.eq_zero_or_pos ((b + m - 1) / m) with h | h
  · rw [h] at hdm
    exfalso
    omega
  · obtain ⟨k, hk⟩ : ∃ k, (b + m - 1) / m = k + 1 := ⟨_, (Nat.succ_pred_eq_of_pos h).symm⟩
    rw [hk] at hdm ⊢
    have e4 : m * (k + 1) = k * m + m := by ring
    have e5 : (k + 1) * m = k * m + m := by ring
    simp only [Nat.add_sub_cancel]
    omega

theorem totalPacketsFor_pos {b m : Nat} (hb : 0 < b) (hm : 0 < m) :
    0 < totalPacketsFor b m := by
  rcases Nat.eq_zero_or_pos (totalPacketsFor b m) with h | h
  · have := (totalPacketsFor_bounds hb hm).2
    rw [h] at this
    omega
  · exact h

theorem preparePackets_sizes (b m rid treq : Nat) (hb : 0 < b) (hm : 0 < m) :
    (preparePackets b m rid treq).map Udp.Packet.data_size =
      List.replicate (totalPacketsFor b m - 1) m ++
        [b - (totalPacketsFor b m - 1) * m] := by
  obtain ⟨h1, h2⟩ := totalPacketsFor_bounds hb hm
  obtain ⟨k, hk⟩ : ∃ k, totalPacketsFor b m = k + 1 :=
    ⟨_, (Nat.succ_pred_eq_of_pos (totalPacketsFor_pos hb hm)).symm⟩
  rw [hk] at h1 h2 ⊢
  simp only [Nat.add_sub_cancel] at h1 h2 ⊢
  unfold preparePackets
  rw [List.map_map, hk]
  have hsz := fragmentSizes_succ_eq k b h1 h2
  have hmap : ∀ (l1 : List Nat) (l2 : List Nat), l2.length ≤ l1.length →
      (List.map (Udp.Packet.data_size ∘ fun isz =>
        ({ timestamp := 0, packet_id := isz.1, total_packets := k + 1,
           request_id := rid, total_requests := treq,
           data_size := isz.2 } : Udp.Packet)) (l1.zip l2)) = l2 := by
    intro l1 l2 hlen
    exact List.map_snd_zip l1 l2 hlen
  rw [hmap _ _ (by simp [fragmentSizes_length])]
  exact hsz

theorem preparePackets_ids (b m rid treq : Nat) :
    (preparePackets b m rid treq).map Udp.Packet.packet_id =
      List.range (totalPacketsFor b m) := by
  unfold preparePackets
  rw [List.map_map]
  exact List.map_fst_zip _ _ (by simp [fragmentSizes_length])

end UdpServer

namespace Tcp

theorem recvPayload_completes :
    ∀ (evs : List Int) (d total : Int), Fits d evs → evs.sum = d →
      recvPayload d total evs = RecvOutcome.exited (total + d) 0 := by
  intro evs
  induction evs with
  | nil =>
    intro d total _ hsum
    simp only [List.sum_nil] at hsum
    simp [recvPayload, ← hsum]
  | cons r rest ih =>
    intro d total hfits hsum
    obtain ⟨hr, hrd, hrest⟩ := hfits
    simp only [List.sum_cons] at hsum
    have hd : ¬ d ≤ 0 := by omega
    have hrn : ¬ r ≤ 0 := by omega
    simp only [recvPayload, if_neg hd, if_neg hrn]
    have := ih (d - r) (total + r) hrest (by omega)
    rw [this]
    congr 1
    omega

theorem mem_write_results {m : List (Nat × RequestStats)} {id : Nat} {st : RequestStats}
    (hmem : (id, st) ∈ m) (hc : st.is_complete = true) :
    latencyRecordOf id st ∈ write_results m := by
  unfold write_results
  exact List.mem_map_of_mem _ (List.mem_filter.mpr ⟨hmem, hc⟩)

theorem write_results_complete_only {m : List (Nat × RequestStats)} {r : Udp.LatencyRecord}
    (hr : r ∈ write_results m) :
    ∃ id st, (id, st) ∈ m ∧ st.is_complete = true ∧ r = latencyRecordOf id st := by
  unfold write_results at hr
  obtain ⟨⟨id, st⟩, hmem, hrec⟩ := List.mem_map.mp hr
  obtain ⟨hmem', hcomp⟩ := List.mem_filter.mp hmem
  exact ⟨id, st, hmem', hcomp, hrec.symm⟩

theorem runRequests_expected_stable :
    ∀ (reqs : List (RequestHeader × Nat × Nat)) (s : SessionState),
      0 < s.total_requests_received →
      (runRequests s reqs).expected_total_requests = s.expected_total_requests := by
  intro reqs
  induction reqs with
  | nil => intro s _; rfl
  | cons e rest ih =>
    intro s hs
    obtain ⟨h, t1, t2⟩ := e
    have hexp : (processRequest s h t1 t2).expected_total_requests =
        s.expected_total_requests := by
      have hne : s.total_requests_received ≠ 0 := by omega
      simp [processRequest, hne]
    simp only [runRequests]
    split
    · exact hexp
    · rw [ih (processRequest s h t1 t2) (by simp [processRequest])]
      exact hexp

end Tcp

namespace Aws

theorem send_data_to_phone_done {num bytes sent : Nat} (h : ¬ sent < num) :
    ∀ evs, send_data_to_phone num bytes sent evs = [] := by
  intro evs
  cases evs <;> simp [send_data_to_phone, h]

end Aws

/-- C1 (counterexample): a run in which a stray fragment declares
`request_id = 3` while `total_requests = 3`, followed by single-fragment
completions of requests 0, 1 and 2.  At the end of the run the spec's
session-completion condition holds (`total_requests > 0` and every request
in range is complete), yet the receive loop has not terminated, because the
code also requires `highest_request_id == total_requests - 1`. -/
theorem c1_session_termination_counterexample :
    (Udp.runLoop Udp.initState
      [({ timestamp := 0, packet_id := 0, total_packets := 1, request_id := 3,
          total_requests := 3, data_size := 0 }, 1),
       ({ timestamp := 0, packet_id := 0, total_packets := 1, request_id := 0,
          total_requests := 3, data_size := 0 }, 2),
       ({ timestamp := 0, packet_id := 0, total_packets := 1, request_id := 1,
          total_requests := 3, data_size := 0 }, 3),
       ({ timestamp := 0, packet_id := 0, total_packets := 1, request_id := 2,
          total_requests := 3, data_size := 0 }, 4)]).2 = false ∧
    Udp.specSessionComplete
      (Udp.runLoop Udp.initState
        [({ timestamp := 0, packet_id := 0, total_packets := 1, request_id := 3,
            total_requests := 3, data_size := 0 }, 1),
         ({ timestamp := 0, packet_id := 0, total_packets := 1, request_id := 0,
            total_requests := 3, data_size := 0 }, 2),
         ({ timestamp := 0, packet_id := 0, total_packets := 1, request_id := 1,
            total_requests := 3, data_size := 0 }, 3),
         ({ timestamp := 0, packet_id := 0, total_packets := 1, request_id := 2,
            total_requests := 3, data_size := 0 }, 4)]).1 = true := by
  decide

/-- C1 (amended): the receive loop terminates exactly when, after an observe,
`total_requests > 0`, `highest_request_id == total_requests - 1`, and every
request in `[0, total_requests)` is complete — i.e. the spec's completion
condition AND additionally `highest_request_id + 1 = total_requests`.  The
sound half of the claim holds: whenever the loop terminates by itself, the
spec's completion condition is true, so termination is never emitted while
a declared request is incomplete or unseen. -/
theorem c1_session_termination_amended (s : Udp.ClientState)
    (evs : List (Udp.Packet × Nat)) :
    (Udp.terminationCheck s = true ↔
      (Udp.specSessionComplete s = true ∧
       s.highest_request_id + 1 = s.total_requests)) ∧
    ((Udp.runLoop Udp.initState evs).2 = true →
      Udp.specSessionComplete (Udp.runLoop Udp.initState evs).1 = true) := by
  constructor
  · constructor
    · intro h
      refine ⟨Udp.terminationCheck_spec h, ?_⟩
      simp only [Udp.terminationCheck, Bool.and_eq_true, beq_iff_eq,
        decide_eq_true_eq] at h
      omega
    · rintro ⟨hspec, hh⟩
      simp only [Udp.specSessionComplete, Bool.and_eq_true,
        decide_eq_true_eq] at hspec
      simp only [Udp.terminationCheck, Bool.and_eq_true, beq_iff_eq,
        decide_eq_true_eq]
      exact ⟨⟨hspec.1, by omega⟩, hspec.2⟩
  · intro h
    exact Udp.terminationCheck_spec (Udp.runLoop_sound evs Udp.initState h)

/-- C1 (witness): a one-packet run that terminates by itself; the amended
theorem's soundness half yields the spec condition there. -/
theorem c1_session_termination_witness :
    Udp.specSessionComplete
      (Udp.runLoop Udp.initState
        [({ timestamp := 0, packet_id := 0, total_packets := 1, request_id := 0,
            total_requests := 1, data_size := 0 }, 5)]).1 = true :=
  (c1_session_termination_amended Udp.initState
      [({ timestamp := 0, packet_id := 0, total_packets := 1, request_id := 0,
          total_requests := 1, data_size := 0 }, 5)]).2 (by decide)

/-- C2 (counterexample): observing the same index-0 fragment twice, the
second time with a different receive time, yields a different RequestRecord
than observing it once: `first_packet_recv_time` (and the last-packet time)
is overwritten by the duplicate, so first occurrence does NOT win. -/
theorem c2_observe_idempotent_counterexample :
    Udp.findReq (Udp.processPacket (Udp.processPacket Udp.initState
        { timestamp := 100, packet_id := 0, total_packets := 2, request_id := 0,
          total_requests := 1, data_size := 0 } 10)
        { timestamp := 100, packet_id := 0, total_packets := 2, request_id := 0,
          total_requests := 1, data_size := 0 } 20).requests 0 ≠
      Udp.findReq (Udp.processPacket Udp.initState
        { timestamp := 100, packet_id := 0, total_packets := 2, request_id := 0,
          total_requests := 1, data_size := 0 } 10).requests 0 := by
  decide

/-- C2 (amended): observe is idempotent only under duplicate delivery with
an identical receive time — re-processing the very same (fragment, receive
time) pair leaves the whole tracker state unchanged.  A duplicate index-0
fragment with a different receive time overwrites
`first_packet_recv_time` with the new time (last occurrence wins). -/
theorem c2_observe_idempotent_amended (s : Udp.ClientState) (p : Udp.Packet)
    (t t' : Nat) :
    Udp.processPacket (Udp.processPacket s p t) p t = Udp.processPacket s p t ∧
    (p.packet_id = 0 →
      (Udp.findReq (Udp.processPacket (Udp.processPacket s p t) p t').requests
          p.request_id).map Udp.RequestStats.first_packet_recv_time = some t') := by
  refine ⟨Udp.processPacket_idem s p t, ?_⟩
  intro h0
  rw [Udp.findReq_processPacket_self]
  simp [Udp.updateStats, h0]

/-- C2 (witness): the amended theorem at a concrete duplicate index-0
fragment with receive times 10 then 20: the recorded first-packet receive
time ends up 20, the later occurrence. -/
theorem c2_observe_idempotent_witness :
    (Udp.findReq (Udp.processPacket (Udp.processPacket Udp.initState
        { timestamp := 100, packet_id := 0, total_packets := 2, request_id := 0,
          total_requests := 1, data_size := 0 } 10)
        { timestamp := 100, packet_id := 0, total_packets := 2, request_id := 0,
          total_requests := 1, data_size := 0 } 20).requests 0).map
      Udp.RequestStats.first_packet_recv_time = some 20 :=
  (c2_observe_idempotent_amended Udp.initState
      { timestamp := 100, packet_id := 0, total_packets := 2, request_id := 0,
        total_requests := 1, data_size := 0 } 10 20).2 rfl

/-- C3 (counterexample): fragment index 1 arrives at receive time 100, then
fragment index 0 of the same request arrives with receive time 50; the code
records `last_packet_recv_time = 50`, not `max(100, 50) = 100` — the last
timestamp regresses. -/
theorem c3_last_recv_counterexample :
    (Udp.findReq (Udp.processPacket (Udp.processPacket Udp.initState
        { timestamp := 0, packet_id := 1, total_packets := 3, request_id := 0,
          total_requests := 1, data_size := 0 } 100)
        { timestamp := 40, packet_id := 0, total_packets := 3, request_id := 0,
          total_requests := 1, data_size := 0 } 50).requests 0).map
      Udp.RequestStats.last_packet_recv_time ≠ some (max 100 50) := by
  decide

/-- C3 (amended): observe sets `last_packet_recv_time` unconditionally to
this arrival's receive time (last assignment wins, which equals the max only
under nondecreasing receive times), and every index-0 observation — not
just the first — sets `first_packet_recv_time` to its own receive time. -/
theorem c3_last_recv_amended (s : Udp.ClientState) (p : Udp.Packet) (t : Nat) :
    (Udp.findReq (Udp.processPacket s p t).requests p.request_id).map
        Udp.RequestStats.last_packet_recv_time = some t ∧
    (p.packet_id = 0 →
      (Udp.findReq (Udp.processPacket s p t).requests p.request_id).map
        Udp.RequestStats.first_packet_recv_time = some t) := by
  rw [Udp.findReq_processPacket_self]
  constructor
  · simp [Udp.updateStats]
  · intro h0
    simp [Udp.updateStats, h0]

/-- C3 (witness): the amended theorem at a concrete index-0 fragment. -/
theorem c3_last_recv_witness :
    (Udp.findReq (Udp.processPacket Udp.initState
        { timestamp := 40, packet_id := 0, total_packets := 3, request_id := 0,
          total_requests := 1, data_size := 0 } 50).requests 0).map
        Udp.RequestStats.last_packet_recv_time = some 50 ∧
    (Udp.findReq (Udp.processPacket Udp.initState
        { timestamp := 40, packet_id := 0, total_packets := 3, request_id := 0,
          total_requests := 1, data_size := 0 } 50).requests 0).map
        Udp.RequestStats.first_packet_recv_time = some 50 :=
  ⟨(c3_last_recv_amended Udp.initState
      { timestamp := 40, packet_id := 0, total_packets := 3, request_id := 0,
        total_requests := 1, data_size := 0 } 50).1,
   (c3_last_recv_amended Udp.initState
      { timestamp := 40, packet_id := 0, total_packets := 3, request_id := 0,
        total_requests := 1, data_size := 0 } 50).2 rfl⟩

/-- C4 (counterexample): a fragment with `packet_id = 5` and
`total_packets = 3` (index greater than or equal to count) is NOT rejected:
processing it mutates the tracker state, creating a RequestRecord. -/
theorem c4_malformed_counterexample :
    Udp.processPacket Udp.initState
      { timestamp := 0, packet_id := 5, total_packets := 3, request_id := 0,
        total_requests := 1, data_size := 0 } 7 ≠ Udp.initState := by
  decide

/-- C4 (amended): the UDP tracker performs no malformed-fragment validation:
a fragment with `packet_id ≥ total_packets` is processed exactly like any
other fragment — a RequestRecord for its request exists afterwards and the
out-of-range index is inserted into its received set. -/
theorem c4_malformed_amended (s : Udp.ClientState) (p : Udp.Packet) (t : Nat)
    (_hmal : p.total_packets ≤ p.packet_id) :
    ∃ st', Udp.findReq (Udp.processPacket s p t).requests p.request_id = some st' ∧
      p.packet_id ∈ st'.received_packets := by
  refine ⟨_, Udp.findReq_processPacket_self s p t, ?_⟩
  simp only [Udp.updateStats]
  exact Udp.insertPacketId_mem _ _

/-- C4 (witness): the amended theorem at the concrete malformed fragment
`packet_id = 5`, `total_packets = 3`. -/
theorem c4_malformed_witness :
    ∃ st', Udp.findReq (Udp.processPacket Udp.initState
        { timestamp := 0, packet_id := 5, total_packets := 3, request_id := 0,
          total_requests := 1, data_size := 0 } 7).requests 0 = some st' ∧
      5 ∈ st'.received_packets :=
  c4_malformed_amended Udp.initState
    { timestamp := 0, packet_id := 5, total_packets := 3, request_id := 0,
      total_requests := 1, data_size := 0 } 7 (by decide)

/-- C5 (counterexample): in the stream tracker, a request with
`total_requests = 10` arriving after one with `total_requests = 5` does NOT
raise the declared total: `expected_total_requests` stays 5, because the TCP
client fixes it from the first request only. -/
theorem c5_total_requests_counterexample :
    (Tcp.processRequest (Tcp.processRequest Tcp.initSession
        { timestamp := 0, request_id := 0, total_requests := 5, data_size := 0 } 1 2)
        { timestamp := 0, request_id := 1, total_requests := 10, data_size := 0 } 3 4
      ).expected_total_requests ≠ 10 := by
  decide

/-- C5 (amended): the datagram tracker does maintain
`total_requests` as the maximum `total_requests` value seen across all
fragments, but the stream tracker does not: `expected_total_requests` is
fixed from the first request ever received and is never changed by any
later request's `total_requests` value. -/
theorem c5_total_requests_amended (evs : List (Udp.Packet × Nat))
    (s : Tcp.SessionState) (h : Tcp.RequestHeader) (t1 t2 : Nat)
    (h0 : Tcp.RequestHeader) (u1 u2 : Nat)
    (rest : List (Tcp.RequestHeader × Nat × Nat))
    (hrecv : 0 < s.total_requests_received) :
    (Udp.processAll Udp.initState evs).total_requests =
      (evs.map fun e => e.1.total_requests).foldl max 0 ∧
    (Tcp.processRequest s h t1 t2).expected_total_requests =
      s.expected_total_requests ∧
    (Tcp.runRequests Tcp.initSession ((h0, u1, u2) :: rest)).expected_total_requests =
      h0.total_requests := by
  refine ⟨?_, ?_, ?_⟩
  · rw [Udp.processAll_total]
    simp [Udp.initState]
  · have hne : s.total_requests_received ≠ 0 := by omega
    simp [Tcp.processRequest, hne]
  · simp only [Tcp.runRequests]
    split
    · simp [Tcp.processRequest, Tcp.initSession]
    · rw [Tcp.runRequests_expected_stable rest _
        (by simp [Tcp.processRequest])]
      simp [Tcp.processRequest, Tcp.initSession]

/-- C5 (witness): the amended theorem at a concrete state with one request
already received (`expected_total_requests = 5`): a later request declaring
`total_requests = 10` leaves the expected total at 5, while the datagram
tracker applied to two fragments declaring 5 then 10 reports 10. -/
theorem c5_total_requests_witness :
    (Udp.processAll Udp.initState
      [({ timestamp := 0, packet_id := 0, total_packets := 1, request_id := 0,
          total_requests := 5, data_size := 0 }, 1),
       ({ timestamp := 0, packet_id := 0, total_packets := 1, request_id := 1,
          total_requests := 10, data_size := 0 }, 2)]).total_requests =
      (([({ timestamp := 0, packet_id := 0, total_packets := 1, request_id := 0,
            total_requests := 5, data_size := 0 }, 1),
         ({ timestamp := 0, packet_id := 0, total_packets := 1, request_id := 1,
            total_requests := 10, data_size := 0 }, 2)] :
          List (Udp.Packet × Nat)).map fun e => e.1.total_requests).foldl max 0 ∧
    (Tcp.processRequest
        { requests := [], total_requests_received := 1, expected_total_requests := 5 }
        { timestamp := 0, request_id := 1, total_requests := 10, data_size := 0 } 3 4
      ).expected_total_requests =
      ({ requests := [], total_requests_received := 1, expected_total_requests := 5 }
        : Tcp.SessionState).expected_total_requests ∧
    (Tcp.runRequests Tcp.initSession
        [({ timestamp := 0, request_id := 0, total_requests := 5, data_size := 0 }, 1, 2)]
      ).expected_total_requests =
      ({ timestamp := 0, request_id := 0, total_requests := 5, data_size := 0 }
        : Tcp.RequestHeader).total_requests :=
  c5_total_requests_amended
    [({ timestamp := 0, packet_id := 0, total_packets := 1, request_id := 0,
        total_requests := 5, data_size := 0 }, 1),
     ({ timestamp := 0, packet_id := 0, total_packets := 1, request_id := 1,
        total_requests := 10, data_size := 0 }, 2)]
    { requests := [], total_requests_received := 1, expected_total_requests := 5 }
    { timestamp := 0, request_id := 1, total_requests := 10, data_size := 0 } 3 4
    { timestamp := 0, request_id := 0, total_requests := 5, data_size := 0 } 1 2
    [] (by decide)

/-- C6 (counterexample): the UDP client's `write_results` does NOT exclude
incomplete requests: a map holding one RequestRecord with
`is_complete = false` yields one output record, where the claim demands
zero. -/
theorem c6_snapshot_counterexample :
    (Udp.write_results
      [(0, { first_packet_send_time := 5, first_packet_recv_time := 10,
             last_packet_recv_time := 20, is_complete := false,
             received_packets := [0] })]).length ≠ 0 := by
  decide

/-- C6 (amended): the TCP client's `write_results` produces exactly one
record per request with `is_complete = true` (each with the claimed
latency differences) and excludes incomplete requests; the UDP client's
`write_results`, however, emits one record for EVERY RequestRecord in the
map, complete or not. -/
theorem c6_snapshot_amended (mu : List (Nat × Udp.RequestStats))
    (mt : List (Nat × Tcp.RequestStats)) (id : Nat) (st : Tcp.RequestStats)
    (hmem : (id, st) ∈ mt) (hc : st.is_complete = true) :
    (Udp.write_results mu).length = mu.length ∧
    Tcp.latencyRecordOf id st ∈ Tcp.write_results mt ∧
    ∀ r ∈ Tcp.write_results mt, ∃ id' st', (id', st') ∈ mt ∧
      st'.is_complete = true ∧ r = Tcp.latencyRecordOf id' st' := by
  refine ⟨?_, Tcp.mem_write_results hmem hc, ?_⟩
  · simp [Udp.write_results]
  · intro r hr
    exact Tcp.write_results_complete_only hr

/-- C6 (witness): the amended theorem at a concrete TCP map with one
complete record and a concrete UDP map with one incomplete record. -/
theorem c6_snapshot_witness :
    (Udp.write_results
      [(0, { first_packet_send_time := 5, first_packet_recv_time := 10,
             last_packet_recv_time := 20, is_complete := false,
             received_packets := [0] })]).length =
      [(0, ({ first_packet_send_time := 5, first_packet_recv_time := 10,
              last_packet_recv_time := 20, is_complete := false,
              received_packets := [0] } : Udp.RequestStats))].length ∧
    Tcp.latencyRecordOf 0
        { send_time := 3, header_recv_time := 10, data_complete_time := 20,
          is_complete := true } ∈
      Tcp.write_results
        [(0, { send_time := 3, header_recv_time := 10, data_complete_time := 20,
               is_complete := true })] ∧
    ∀ r ∈ Tcp.write_results
        [(0, { send_time := 3, header_recv_time := 10, data_complete_time := 20,
               is_complete := true })],
      ∃ id' st',
        (id', st') ∈
          [(0, ({ send_time := 3, header_recv_time := 10, data_complete_time := 20,
                  is_complete := true } : Tcp.RequestStats))] ∧
        st'.is_complete = true ∧ r = Tcp.latencyRecordOf id' st' :=
  c6_snapshot_amended
    [(0, { first_packet_send_time := 5, first_packet_recv_time := 10,
           last_packet_recv_time := 20, is_complete := false,
           received_packets := [0] })]
    [(0, { send_time := 3, header_recv_time := 10, data_complete_time := 20,
           is_complete := true })]
    0
    { send_time := 3, header_recv_time := 10, data_complete_time := 20,
      is_complete := true }
    (by decide) rfl

/-- C7 (confirmed): for every positive payload size and fragment capacity,
`send_request` prepares exactly `ceil(bytes / max_size)` packets — the
count bounds `(count-1)*max < bytes ≤ count*max` characterize the ceiling —
with `packet_id` running 0, 1, ..., count-1 in order, every packet but the
last carrying exactly `max_size` payload bytes, the last carrying the
remainder, and the payload sizes summing to the payload size. -/
theorem c7_emitter_fragmentation (bytes max_size rid treq : Nat)
    (hb : 0 < bytes) (hm : 0 < max_size) :
    (UdpServer.preparePackets bytes max_size rid treq).length =
      UdpServer.totalPacketsFor bytes max_size ∧
    (UdpServer.totalPacketsFor bytes max_size - 1) * max_size < bytes ∧
    bytes ≤ UdpServer.totalPacketsFor bytes max_size * max_size ∧
    (UdpServer.preparePackets bytes max_size rid treq).map Udp.Packet.packet_id =
      List.range (UdpServer.totalPacketsFor bytes max_size) ∧
    (UdpServer.preparePackets bytes max_size rid treq).map Udp.Packet.data_size =
      List.replicate (UdpServer.totalPacketsFor bytes max_size - 1) max_size ++
        [bytes - (UdpServer.totalPacketsFor bytes max_size - 1) * max_size] ∧
    ((UdpServer.preparePackets bytes max_size rid treq).map
      Udp.Packet.data_size).sum = bytes := by
  obtain ⟨h1, h2⟩ := UdpServer.totalPacketsFor_bounds hb hm
  have h1' := h1
  rw [Nat.mul_comm] at h1'
  refine ⟨?_, h1, h2, UdpServer.preparePackets_ids bytes max_size rid treq,
    UdpServer.preparePackets_sizes bytes max_size rid treq hb hm, ?_⟩
  · rw [← List.length_map (UdpServer.preparePackets bytes max_size rid treq)
      Udp.Packet.packet_id,
      UdpServer.preparePackets_ids bytes max_size rid treq, List.length_range]
  · rw [UdpServer.preparePackets_sizes bytes max_size rid treq hb hm,
      List.sum_append, List.sum_replicate]
    simp only [smul_eq_mul, List.sum_cons, List.sum_nil, Nat.add_zero]
    omega

/-- C7 (witness): the end-to-end example, a 3000-byte payload with
`max_fragment_size = 1400`: three fragments, indices 0, 1, 2, sizes
1400, 1400, 200, summing to 3000. -/
theorem c7_emitter_fragmentation_witness :
    (UdpServer.preparePackets 3000 1400 0 1).length =
      UdpServer.totalPacketsFor 3000 1400 ∧
    (UdpServer.totalPacketsFor 3000 1400 - 1) * 1400 < 3000 ∧
    3000 ≤ UdpServer.totalPacketsFor 3000 1400 * 1400 ∧
    (UdpServer.preparePackets 3000 1400 0 1).map Udp.Packet.packet_id =
      List.range (UdpServer.totalPacketsFor 3000 1400) ∧
    (UdpServer.preparePackets 3000 1400 0 1).map Udp.Packet.data_size =
      List.replicate (UdpServer.totalPacketsFor 3000 1400 - 1) 1400 ++
        [3000 - (UdpServer.totalPacketsFor 3000 1400 - 1) * 1400] ∧
    ((UdpServer.preparePackets 3000 1400 0 1).map Udp.Packet.data_size).sum = 3000 :=
  c7_emitter_fragmentation 3000 1400 0 1 (by decide) (by decide)

/-- C8 (confirmed): the stream-transport payload loop keeps accumulating
after a short read (a positive `recv` smaller than the bytes outstanding
simply continues the loop); on a transport-consistent trace delivering
exactly the declared bytes it exits having received exactly `data_size`
bytes with nothing outstanding; and when fewer bytes than declared arrive
before the peer closes, the connection handler aborts with the session
state unchanged, so every already-complete RequestRecord remains recorded
and still appears in `write_results`. -/
theorem c8_stream_receive :
    (∀ (remaining total r : Int) (rest : List Int), 0 < r → r < remaining →
      Tcp.recvPayload remaining total (r :: rest) =
        Tcp.recvPayload (remaining - r) (total + r) rest) ∧
    (∀ (d : Int) (evs : List Int), Tcp.Fits d evs → evs.sum = d →
      Tcp.recvPayload d 0 evs = Tcp.RecvOutcome.exited d 0) ∧
    (∀ (s : Tcp.SessionState) (h : Tcp.RequestHeader) (t1 t2 : Nat)
      (evs : List Int) (tot rem : Int),
      Tcp.recvPayload (h.data_size : Int) 0 evs = Tcp.RecvOutcome.exited tot rem →
      0 < rem →
      Tcp.handleOneRequest s h t1 t2 evs = Tcp.ConnStep.aborted s ∧
      ∀ id st, (id, st) ∈ s.requests → st.is_complete = true →
        Tcp.latencyRecordOf id st ∈ Tcp.write_results s.requests) := by
  refine ⟨?_, ?_, ?_⟩
  · intro remaining total r rest hr hlt
    have h1 : ¬ remaining ≤ 0 := by omega
    have h2 : ¬ r ≤ 0 := by omega
    simp [Tcp.recvPayload, h1, h2]
  · intro d evs hf hs
    have := Tcp.recvPayload_completes evs d 0 hf hs
    simpa using this
  · intro s h t1 t2 evs tot rem hrecv hrem
    constructor
    · unfold Tcp.handleOneRequest
      rw [hrecv]
      simp [hrem]
    · intro id st hmem hc
      exact Tcp.mem_write_results hmem hc

/-- C8 (witness): the parts of the stream-receive theorem at concrete
inputs — a short read of 4 out of 10 bytes continues the loop; the trace
4, 4, 2 completes a 10-byte payload exactly; and a connection declaring 7
bytes whose first `recv` returns 0 (peer closed) aborts with the session
state, holding one completed record, unchanged. -/
theorem c8_stream_receive_witness :
    Tcp.recvPayload 10 0 (4 :: [4, 2]) = Tcp.recvPayload (10 - 4) (0 + 4) [4, 2] ∧
    Tcp.recvPayload 10 0 [4, 4, 2] = Tcp.RecvOutcome.exited 10 0 ∧
    Tcp.handleOneRequest
        { requests := [(0, { send_time := 3, header_recv_time := 10,
                             data_complete_time := 20, is_complete := true })],
          total_requests_received := 1, expected_total_requests := 5 }
        { timestamp := 0, request_id := 1, total_requests := 5, data_size := 7 } 1 2
        [0] =
      Tcp.ConnStep.aborted
        { requests := [(0, { send_time := 3, header_recv_time := 10,
                             data_complete_time := 20, is_complete := true })],
          total_requests_received := 1, expected_total_requests := 5 } :=
  ⟨c8_stream_receive.1 10 0 4 [4, 2] (by decide) (by decide),
   c8_stream_receive.2.1 10 [4, 4, 2]
     (by simp [Tcp.Fits]) (by decide),
   (c8_stream_receive.2.2
     { requests := [(0, { send_time := 3, header_recv_time := 10,
                          data_complete_time := 20, is_complete := true })],
       total_requests_received := 1, expected_total_requests := 5 }
     { timestamp := 0, request_id := 1, total_requests := 5, data_size := 7 } 1 2
     [0] 0 7 (by decide) (by decide)).1⟩

/-- C9 (confirmed): while requests remain to be sent, a received 4-byte
value other than the literal trigger token causes no send for that read —
the value is discarded and the loop continues with the same count — and
the exact token causes exactly one request of `bytes_per_request` payload
bytes to be sent. -/
theorem c9_trigger_gating (num bytes sent : Nat) (bs : List Nat)
    (rest : List (Option (List Nat)))
    (_hlen : bs.length = 4) (hne : bs ≠ Aws.TRIG) :
    Aws.send_data_to_phone num bytes sent (some bs :: rest) =
      Aws.send_data_to_phone num bytes sent rest ∧
    (sent < num →
      Aws.send_data_to_phone num bytes sent (some Aws.TRIG :: rest) =
        bytes :: Aws.send_data_to_phone num bytes (sent + 1) rest) := by
  constructor
  · by_cases hs : sent < num
    · simp [Aws.send_data_to_phone, hs, hne]
    · rw [Aws.send_data_to_phone_done hs (some bs :: rest),
        Aws.send_data_to_phone_done hs rest]
  · intro hs
    simp [Aws.send_data_to_phone, hs, Aws.TRIG]

/-- C9 (witness): with 3 requests pending, the 4-byte value `ABCD` is
discarded without a send, and the token itself triggers one 500-byte
request. -/
theorem c9_trigger_gating_witness :
    Aws.send_data_to_phone 3 500 0 [some [65, 66, 67, 68]] =
      Aws.send_data_to_phone 3 500 0 [] ∧
    Aws.send_data_to_phone 3 500 0 [some Aws.TRIG] =
      500 :: Aws.send_data_to_phone 3 500 1 [] :=
  ⟨(c9_trigger_gating 3 500 0 [65, 66, 67, 68] [] (by decide) (by decide)).1,
   (c9_trigger_gating 3 500 0 [65, 66, 67, 68] [] (by decide) (by decide)).2
     (by decide)⟩

/-- C10 (confirmed): the `is_complete` flag of a RequestRecord is monotone —
once a request's record is complete, it remains complete (and present)
after processing any further sequence of fragments, including duplicates
and fragments carrying a different `total_packets` value. -/
theorem c10_is_complete_monotone (s : Udp.ClientState)
    (evs : List (Udp.Packet × Nat)) (rid : Nat) (st : Udp.RequestStats)
    (h1 : Udp.findReq s.requests rid = some st) (h2 : st.is_complete = true) :
    ∃ st', Udp.findReq (Udp.processAll s evs).requests rid = some st' ∧
      st'.is_complete = true :=
  Udp.processAll_complete_mono evs s rid st h1 h2

/-- C10 (witness): a completed single-fragment request stays complete after
a duplicate index-0 fragment arrives declaring a larger
`total_packets = 5`. -/
theorem c10_is_complete_monotone_witness :
    ∃ st', Udp.findReq (Udp.processAll
        { requests := [(0, { first_packet_send_time := 0,
                             first_packet_recv_time := 1,
                             last_packet_recv_time := 1, is_complete := true,
                             received_packets := [0] })],
          highest_request_id := 0, total_requests := 1 }
        [({ timestamp := 2, packet_id := 0, total_packets := 5, request_id := 0,
            total_requests := 1, data_size := 0 }, 3)]).requests 0 = some st' ∧
      st'.is_complete = true :=
  c10_is_complete_monotone
    { requests := [(0, { first_packet_send_time := 0, first_packet_recv_time := 1,
                         last_packet_recv_time := 1, is_complete := true,
                         received_packets := [0] })],
      highest_request_id := 0, total_requests := 1 }
    [({ timestamp := 2, packet_id := 0, total_packets := 5, request_id := 0,
        total_requests := 1, data_size := 0 }, 3)]
    0
    { first_packet_send_time := 0, first_packet_recv_time := 1,
      last_packet_recv_time := 1, is_complete := true, received_packets := [0] }
    (by decide) rfl
